import Mathlib

/-! Shallow embedding of the ndseq JACK step sequencer (src/unnamed/part_000).
The program's package-level mutable globals become the fields of `SeqState`;
the MIDI messages written to the two JACK output ports during a callback are
collected into a list of `Msg` values tagged with their destination port;
`MidiEventWrite` is modelled as recording the message and returning the JACK
success code 0; a Go out-of-range slice index (a runtime fault that unwinds
the real-time thread) is modelled by `Option`, with `none` standing for the
fault.  Go `uint32` arithmetic is modelled on `Nat` with an explicit
`% 2 ^ 32` at every operation that can wrap. -/

namespace Ndseq

/-- Error code `DivideByZero` (src/unnamed/part_000:23). -/
def DivideByZero : Nat := 50

/-- Status codes of the external JACK client library, referenced by
`isFailure`; the values are the standard JackStatus enumeration bits.
Only the fact that the success code 0 is none of them matters here. -/
def jackFailure : Nat := 0x01

def jackInvalidOption : Nat := 0x02

def jackNameNotUnique : Nat := 0x04

def jackServerError : Nat := 0x20

def jackNoSuchClient : Nat := 0x40

def jackLoadFailure : Nat := 0x80

def jackInitFailure : Nat := 0x100

def jackShmFailure : Nat := 0x200

def jackVersionError : Nat := 0x400

def jackBackendError : Nat := 0x800

def jackClientZombie : Nat := 0x1000

/-- Embeds `isFailure` (src/unnamed/part_000:144-149): a return code counts as
a failure when it is one of the listed JACK status codes or `DivideByZero`. -/
def isFailure (code : Nat) : Bool :=
  code == jackFailure || code == jackInvalidOption || code == jackNameNotUnique ||
    code == jackServerError || code == jackNoSuchClient || code == jackLoadFailure ||
    code == jackInitFailure || code == jackShmFailure || code == jackVersionError ||
    code == jackBackendError || code == jackClientZombie || code == DivideByZero

/-- Destination JACK output port of an emitted MIDI message:
`launchpadOutput` (controller lights, src/unnamed/part_000:31) or
`ndOutput` (synthesizer, src/unnamed/part_000:36). -/
inductive Dest
  | launchpad
  | nd
deriving DecidableEq

/-- One MIDI message written to an output buffer during a callback. -/
structure Msg where
  dest : Dest
  bytes : List Nat
deriving DecidableEq

/-- The sequencer's package-level mutable globals (src/unnamed/part_000:38-44):
`beat` (the step cursor, a Go `int` that is only ever incremented), the
`firstNotePlayed` flag, the uint32 `sampleCount` carry, the uint32
`samplesPerBeat` period, the uint32 `tempo` in BPM and the 8 x 64 `trigs`
grid of uint8 cells. -/
structure SeqState where
  beat : Nat
  firstNotePlayed : Bool
  sampleCount : Nat
  samplesPerBeat : Nat
  tempo : Nat
  trigs : List (List Nat)
deriving DecidableEq

/-- The globals at program start: Go zero values for everything except
`tempo`, which the command line flag sets (default 120,
src/unnamed/part_000:51), and the 8 x 64 all-zero `trigs` grid. -/
def initState (tempo : Nat) : SeqState :=
  { beat := 0
    firstNotePlayed := false
    sampleCount := 0
    samplesPerBeat := 0
    tempo := tempo
    trigs := List.replicate 8 (List.replicate 64 0) }

/-- Embeds `setSamplesPerBeat` (src/unnamed/part_000:224-230), the JACK
sample-rate callback: returns `DivideByZero` when the configured tempo is
zero, otherwise stores `samplesPerBeat = (60 * sr) / tempo` (uint32
multiplication wraps, the division cannot) and returns 0. -/
def setSamplesPerBeat (sr : Nat) (s : SeqState) : SeqState × Nat :=
  if s.tempo = 0 then (s, DivideByZero)
  else ({ s with samplesPerBeat := 60 * sr % 2 ^ 32 / s.tempo }, 0)

/-- Embeds `stepLightMidiData` (src/unnamed/part_000:232-237): the light
message for a step is `[0x90, byte((beat / 8) + 16 * (beat % 8)), 63]`; the
Go `byte` conversion is the `% 256`. -/
def stepLightMidiData (beat : Nat) : List Nat :=
  [0x90, (beat / 8 + 16 * (beat % 8)) % 256, 63]

/-- Embeds `advanceStepLight` (src/unnamed/part_000:105-113): on the very
first note (cursor 0, nothing played yet) it increments `beat` and writes the
fixed message `{0x90, 0x10, 63}` to the Launchpad port, returning the write's
code (modelled as 0); otherwise it just increments `beat` and returns 0. -/
def advanceStepLight (s : SeqState) : SeqState × List Msg × Nat :=
  if s.beat = 0 ∧ s.firstNotePlayed = false then
    ({ s with beat := s.beat + 1 }, [⟨Dest.launchpad, [0x90, 0x10, 63]⟩], 0)
  else
    ({ s with beat := s.beat + 1 }, [], 0)

/-- Embeds `triggerTrack` (src/unnamed/part_000:267-269): an unimplemented
stub that writes nothing and returns 0. -/
def triggerTrack (_track : Nat) (_trig : Nat) : List Msg × Nat :=
  ([], 0)

/-- Inner loop of `trigger` (src/unnamed/part_000:256-263) over one track's
64 cells: calls `triggerTrack` per cell and returns early with the first
failing code (which, `triggerTrack` being a stub, never happens). -/
def triggerRow (track : Nat) : List Nat → List Msg × Nat
  | [] => ([], 0)
  | trig :: rest =>
    let r := triggerTrack track trig
    if isFailure r.2 then r
    else
      let k := triggerRow track rest
      (r.1 ++ k.1, k.2)

/-- Outer loop of `trigger` over the enumerated tracks of the grid. -/
def triggerRows : List (Nat × List Nat) → List Msg × Nat
  | [] => ([], 0)
  | (track, row) :: rest =>
    let r := triggerRow track row
    if isFailure r.2 then r
    else
      let k := triggerRows rest
      (r.1 ++ k.1, k.2)

/-- Embeds `trigger` (src/unnamed/part_000:255-265): iterates every cell of
every track of `trigs`, invoking the `triggerTrack` stub, and returns 0. -/
def trigger (s : SeqState) : List Msg × Nat :=
  triggerRows s.trigs.enum

/-- Embeds `note` (src/unnamed/part_000:160-162), the handler for inbound
0x80/0x90 messages: an unimplemented stub that ignores its input, writes
nothing, mutates nothing and returns 0. -/
def note (_inb : List Nat) : List Msg :=
  []

/-- Embeds `cc` (src/unnamed/part_000:115-136), the handler for inbound 0xB0
messages.  The Go code first builds `{0x90, 0x36, in[2]}` (reading index 2 of
the input slice: out of range when the message has fewer than 3 bytes, hence
the `none`), then ORs a channel offset into the status byte according to the
button value `in[1]`: buttons 0x68-0x6D give offsets 0-5 (case 0x68 has an
empty body), and any other value leaves the status at 0x90 (the switch has no
default case), then writes the message to the synthesizer port. -/
def cc (inb : List Nat) : Option (List Msg) :=
  match inb.get? 2 with
  | Option.none => Option.none
  | Option.some v =>
    match inb.get? 1 with
    | Option.none => Option.none
    | Option.some b =>
      let status : Nat :=
        if b = 0x68 then 0x90
        else if b = 0x69 then 0x90 ||| 0x01
        else if b = 0x6A then 0x90 ||| 0x02
        else if b = 0x6B then 0x90 ||| 0x03
        else if b = 0x6C then 0x90 ||| 0x04
        else if b = 0x6D then 0x90 ||| 0x05
        else 0x90
      Option.some [⟨Dest.nd, [status, 0x36, v]⟩]

/-- Embeds `processMidi` (src/unnamed/part_000:214-222): dispatches on the
status byte `event.Buffer[0]` (reading index 0: out of range on an empty
buffer, hence the outer `none`); 0xB0 goes to `cc`, 0x80 and 0x90 go to the
`note` stub, anything else falls through the switch and returns 0 with no
effect.  The state is threaded through to make explicit that no handler
mutates it. -/
def processMidi (buf : List Nat) (s : SeqState) : Option (SeqState × List Msg) :=
  match buf.get? 0 with
  | Option.none => Option.none
  | Option.some b0 =>
    if b0 = 0xB0 then
      match cc buf with
      | Option.none => Option.none
      | Option.some out => Option.some (s, out)
    else if b0 = 0x80 ∨ b0 = 0x90 then
      Option.some (s, note buf)
    else
      Option.some (s, [])

/-- Result of one `tick` call: the new globals, the MIDI messages written
during the call, and whether the call reached `trigger` (the code's notion
of a beat firing). -/
structure TickResult where
  state : SeqState
  out : List Msg
  triggered : Bool
deriving DecidableEq

/-- Embeds `tick` (src/unnamed/part_000:239-253).  If no note has ever
played: call `advanceStepLight`, return early on a failing write code
(impossible, the write is modelled as succeeding), set `firstNotePlayed` and
call `trigger` unconditionally.  Otherwise: if `sampleCount + nframes` (uint32
addition wraps) is still below `samplesPerBeat`, accumulate and do nothing;
else call `trigger`.  Note that the source neither resets nor reduces
`sampleCount` when it triggers, and never touches `beat` on this path. -/
def tick (nframes : Nat) (s : SeqState) : TickResult :=
  if s.firstNotePlayed = false then
    let asl := advanceStepLight s
    if isFailure asl.2.2 then
      ⟨asl.1, asl.2.1, false⟩
    else
      let s2 : SeqState := { asl.1 with firstNotePlayed := true }
      ⟨s2, asl.2.1 ++ (trigger s2).1, true⟩
  else if (s.sampleCount + nframes) % 2 ^ 32 < s.samplesPerBeat then
    ⟨{ s with sampleCount := (s.sampleCount + nframes) % 2 ^ 32 }, [], false⟩
  else
    ⟨s, (trigger s).1, true⟩

/-- Runs a sequence of `tick` calls, one per callback, threading the state
and accumulating the emitted messages and the number of calls that reached
`trigger`. -/
def runTicks : List Nat → SeqState → SeqState × List Msg × Nat
  | [], s => (s, [], 0)
  | n :: rest, s =>
    let r := tick n s
    let k := runTicks rest r.state
    (k.1, r.out ++ k.2.1, (if r.triggered then 1 else 0) + k.2.2)

/-- A clock state as configured by the defaults of the spec's example:
tempo 120 BPM at sample rate 48000, so `samplesPerBeat = 24000`. -/
def clock24k : SeqState :=
  { initState 120 with samplesPerBeat := 24000 }

/-- The state right after the very first `tick` call (the code's `Running`
state): `firstNotePlayed` is set, `beat = 1`, `sampleCount = 0`. -/
def afterFirstTick (spb : Nat) : SeqState :=
  (tick 0 { initState 120 with samplesPerBeat := spb }).state

/-- The `Running` state with the step cursor moved to a given value. -/
def runningAt (beat spb : Nat) : SeqState :=
  { afterFirstTick spb with beat := beat }

/-- Helper: `advanceStepLight` changes neither the sample carry nor the beat
period, and its write code is the success code 0. -/
theorem advanceStepLight_fields (s : SeqState) :
    (advanceStepLight s).1.sampleCount = s.sampleCount ∧
    (advanceStepLight s).1.samplesPerBeat = s.samplesPerBeat ∧
    (advanceStepLight s).2.2 = 0 := by
  unfold advanceStepLight
  split <;> simp

/-- Helper: one `tick` call preserves `sampleCount < samplesPerBeat`. -/
theorem tick_carry_step (n : Nat) (s : SeqState)
    (h : s.sampleCount < s.samplesPerBeat) :
    (tick n s).state.sampleCount < (tick n s).state.samplesPerBeat := by
  obtain ⟨h1, h2, h3⟩ := advanceStepLight_fields s
  by_cases hf : s.firstNotePlayed = false
  · simp only [tick, hf, if_true, h3]
    simp only [isFailure, jackFailure, jackInvalidOption, jackNameNotUnique, jackServerError,
      jackNoSuchClient, jackLoadFailure, jackInitFailure, jackShmFailure, jackVersionError,
      jackBackendError, jackClientZombie, DivideByZero]
    norm_num
    simpa [h1, h2] using h
  · simp only [tick, hf]
    norm_num
    split
    · rename_i hcond
      simpa using hcond
    · simpa using h

/-- Helper: any sequence of `tick` calls preserves the carry bound. -/
theorem runTicks_carry_aux (frames : List Nat) : ∀ s : SeqState,
    s.sampleCount < s.samplesPerBeat →
    (runTicks frames s).1.sampleCount < (runTicks frames s).1.samplesPerBeat := by
  induction frames with
  | nil => intro s h; simpa [runTicks] using h
  | cons n rest ih =>
      intro s h
      simpa [runTicks] using ih (tick n s).state (tick_carry_step n s h)

/-- C1: the partition-invariance claim fails on the code.  From the running
state with `samplesPerBeat = 4` and total frame count `T = 8 = 2 *
samplesPerBeat`, the single-call split `tick(8)` reaches `trigger` once while
the split `tick(4); tick(4)` reaches it twice, so the number of reported beat
firings depends on how `T` is partitioned: `tick` never subtracts
`samplesPerBeat` from (or otherwise resets) `sampleCount` when it fires. -/
theorem crossing_count_depends_on_partition :
    (runTicks [8] (afterFirstTick 4)).2.2 = 1 ∧
    (runTicks [4, 4] (afterFirstTick 4)).2.2 = 2 := by decide

/-- C2: on the very first `tick` call after startup the sequencer does fire
unconditionally (here 64 frames against a 24000-frame beat, so the clock sees
no crossing), but the light message it emits is the fixed `[0x90, 0x10, 63]`,
which is `stepLightMidiData 1` — the encoding of step 1 — and not step 0's
encoding `[0x90, 0x00, 63]`, despite the source comment "light step 0". -/
theorem first_tick_unconditional_fire_and_light :
    (tick 64 clock24k).triggered = true ∧
    (tick 64 clock24k).out = [⟨Dest.launchpad, [0x90, 0x10, 63]⟩] ∧
    stepLightMidiData 1 = [0x90, 0x10, 63] ∧
    stepLightMidiData 0 = [0x90, 0x00, 63] := by decide

/-- C3 counterexample: `setSamplesPerBeat 0` (sample rate zero) with the
default tempo 120 does not fail: it returns the success code 0 (not a
failure code, in particular not `DivideByZero`) and silently sets
`samplesPerBeat = 0`.  The only guarded divisor is the tempo. -/
theorem sampleRate_zero_not_rejected :
    (setSamplesPerBeat 0 (initState 120)).2 = 0 ∧
    isFailure (setSamplesPerBeat 0 (initState 120)).2 = false ∧
    (setSamplesPerBeat 0 (initState 120)).1.samplesPerBeat = 0 := by decide

/-- C3 (amended): for any configured tempo greater than zero,
`setSamplesPerBeat sr` succeeds for every sample rate `sr` (zero included)
and stores `samplesPerBeat = (60 * sr mod 2^32) / tempo`, leaving the tempo
unchanged. -/
theorem setSamplesPerBeat_contract (sr : Nat) (s : SeqState) (h : 0 < s.tempo) :
    (setSamplesPerBeat sr s).2 = 0 ∧
    (setSamplesPerBeat sr s).1.samplesPerBeat = 60 * sr % 2 ^ 32 / s.tempo ∧
    (setSamplesPerBeat sr s).1.tempo = s.tempo := by
  have ht : ¬s.tempo = 0 := by omega
  simp [setSamplesPerBeat, ht]

/-- Witness for C3 at the spec's concrete example: tempo 120 and sample rate
48000 give `samplesPerBeat = 24000`. -/
theorem setSamplesPerBeat_contract_witness :
    0 < (initState 120).tempo ∧
    (setSamplesPerBeat 48000 (initState 120)).2 = 0 ∧
    (setSamplesPerBeat 48000 (initState 120)).1.samplesPerBeat = 24000 :=
  ⟨by decide, (setSamplesPerBeat_contract 48000 (initState 120) (by decide)).1,
    (setSamplesPerBeat_contract 48000 (initState 120) (by decide)).2.1⟩

/-- C4: in the running state a reported beat firing advances nothing.  With
`samplesPerBeat = 4`, cursor at 5 and a 4-frame call, `tick` reaches
`trigger` but leaves `beat` at 5 and writes no light message: the cursor
increment and the mod-64 wrap of the claim are never executed after the
first call (`advanceStepLight` is only reachable from the first-tick path,
and `trigger`/`triggerTrack` are stubs). -/
theorem running_crossing_leaves_cursor_unchanged :
    (tick 4 (runningAt 5 4)).triggered = true ∧
    (tick 4 (runningAt 5 4)).state.beat = 5 ∧
    (tick 4 (runningAt 5 4)).out = [] := by decide

/-- C5: a 3-byte CC message `[0xB0, b, v]` with a button value `b` in the
fixed table 0x68-0x6D is translated to a single note-on for the synthesizer
port whose status byte is `0x90 ||| (b - 0x68)` (channel offsets 0-5), with
the fixed note 0x36 and velocity `v`. -/
theorem cc_button_translation (b v : Nat) (s : SeqState)
    (h : 0x68 ≤ b ∧ b ≤ 0x6D) :
    processMidi [0xB0, b, v] s =
      Option.some (s, [⟨Dest.nd, [0x90 ||| (b - 0x68), 0x36, v]⟩]) := by
  obtain ⟨h1, h2⟩ := h
  interval_cases b <;> rfl

/-- Witness for C5 at the spec's concrete example: `0xB0 0x6A 0x64` (button
3, velocity 100) encodes to `0x92 0x36 0x64`. -/
theorem cc_button_translation_witness :
    ((0x68 : Nat) ≤ 0x6A ∧ (0x6A : Nat) ≤ 0x6D) ∧
    processMidi [0xB0, 0x6A, 0x64] (initState 120) =
      Option.some (initState 120, [⟨Dest.nd, [0x92, 0x36, 0x64]⟩]) :=
  ⟨⟨by decide, by decide⟩,
    cc_button_translation 0x6A 0x64 (initState 120) ⟨by decide, by decide⟩⟩

/-- C6: the handler for grid note messages is an unimplemented stub, so the
message `0x90 0x23 0x7F` — which the claim says toggles cell (track 2,
step 3) — produces no event at all: no output is written and the state,
the `trigs` grid included, is returned unchanged. -/
theorem grid_note_produces_no_event :
    processMidi [0x90, 0x23, 0x7F] (initState 120) =
      Option.some (initState 120, []) := rfl

/-- C7 counterexample: the light message emitted on the first tick — which
the claim includes as "the one emitted for step 0" — is not step 0's
encoding `[0x90, (0 / 8) + 16 * (0 % 8), 63] = [0x90, 0x00, 63]`; the code
hardcodes `[0x90, 0x10, 63]` there. -/
theorem first_tick_light_differs_from_step0_encoding :
    (tick 64 clock24k).out ≠ [⟨Dest.launchpad, stepLightMidiData 0⟩] := by decide

/-- C7 (amended): for every step `s` below 64, `stepLightMidiData s` is the
3-byte message `[0x90, (s / 8) + 16 * (s % 8), 63]` (the byte conversion
cannot truncate below step 64); the first-tick message, however, is the
hardcoded `[0x90, 0x10, 63]`, i.e. the encoding of step 1, not step 0. -/
theorem stepLightMidiData_encoding (s : Nat) (h : s < 64) :
    stepLightMidiData s = [0x90, s / 8 + 16 * (s % 8), 63] := by
  have hm : (s / 8 + 16 * (s % 8)) % 256 = s / 8 + 16 * (s % 8) :=
    Nat.mod_eq_of_lt (by omega)
  simp [stepLightMidiData, hm]

/-- Witness for C7 at the spec's concrete example: step 5 gives note
`(5 / 8) + 16 * (5 % 8) = 80` and message `[0x90, 80, 63]`. -/
theorem stepLightMidiData_encoding_witness :
    5 < 64 ∧ stepLightMidiData 5 = [0x90, 80, 63] :=
  ⟨by decide, stepLightMidiData_encoding 5 (by decide)⟩

/-- C8: decoding is not total.  A truncated CC message `[0xB0, 0x68]` makes
`cc` read index 2 of a 2-byte slice — an out-of-range fault (`none`), not a
silent ignore — and an empty message faults already on the status-byte read;
a 1-byte message with an unrecognized status byte (0xF8) is, by contrast,
ignored without fault, as the claim says. -/
theorem truncated_cc_faults :
    processMidi [0xB0, 0x68] (initState 120) = Option.none ∧
    processMidi [] (initState 120) = Option.none ∧
    processMidi [0xF8] (initState 120) = Option.some (initState 120, []) :=
  ⟨rfl, rfl, rfl⟩

/-- C9: the carry invariant holds.  From any state whose sample carry is
below the beat period — in particular from startup, where the carry is 0 and
`samplesPerBeat` is positive — every sequence of `tick` calls, whatever the
`nframes` values (uint32 wrap included), ends with
`sampleCount < samplesPerBeat`: `tick` only stores `sampleCount + nframes`
after checking it is below `samplesPerBeat`, and leaves the carry untouched
on every other path. -/
theorem sampleCount_invariant (frames : List Nat) (s : SeqState)
    (h : s.sampleCount < s.samplesPerBeat) :
    (runTicks frames s).1.sampleCount < (runTicks frames s).1.samplesPerBeat :=
  runTicks_carry_aux frames s h

/-- Witness for C9: a concrete run of three callbacks against the
120-BPM/48000-Hz clock keeps the carry below the beat period. -/
theorem sampleCount_invariant_witness :
    clock24k.sampleCount < clock24k.samplesPerBeat ∧
    (runTicks [100, 7, 3000] clock24k).1.sampleCount <
      (runTicks [100, 7, 3000] clock24k).1.samplesPerBeat :=
  ⟨by decide, sampleCount_invariant [100, 7, 3000] clock24k (by decide)⟩

/-- C10: a CC message whose button byte is outside the table 0x68-0x6D is
not ignored: the switch has no default case, so the status byte keeps its
initial value and the synthesizer still receives a note-on on channel
offset 0 — status exactly 0x90, note 0x36, velocity `v`. -/
theorem cc_unknown_button_channel0 (b v : Nat) (s : SeqState)
    (h : b ∉ ([0x68, 0x69, 0x6A, 0x6B, 0x6C, 0x6D] : List Nat)) :
    processMidi [0xB0, b, v] s = Option.some (s, [⟨Dest.nd, [0x90, 0x36, v]⟩]) := by
  simp only [List.mem_cons, List.not_mem_nil, or_false, not_or] at h
  obtain ⟨h1, h2, h3, h4, h5, h6⟩ := h
  simp [processMidi, cc, h1, h2, h3, h4, h5, h6]

/-- Witness for C10: the out-of-table button byte 0x42 still yields a
channel-0 note-on. -/
theorem cc_unknown_button_channel0_witness :
    (0x42 : Nat) ∉ ([0x68, 0x69, 0x6A, 0x6B, 0x6C, 0x6D] : List Nat) ∧
    processMidi [0xB0, 0x42, 0x7F] (initState 120) =
      Option.some (initState 120, [⟨Dest.nd, [0x90, 0x36, 0x7F]⟩]) :=
  ⟨by decide, cc_unknown_button_channel0 0x42 0x7F (initState 120) (by decide)⟩

end Ndseq
